import Mathlib

/-!
Verification of the Laptop Catalog API (src/main.py): a shallow embedding of
the product data model, the public read endpoints, the admin CRUD endpoints
and the admin authentication gate, with theorems settling the specification
claims.

The HTTP layer delegates all persistence and query evaluation to an external
relational store.  The store itself is not part of the repository, so its
query semantics -- equality, case-insensitive substring and containment
filters, descending order, partial update by column set, delete reporting
affected rows -- are modelled from the spec.  The request-handler logic
(null stripping, empty-payload rejection, not-found detection, the token
gate) is translated from src/main.py.
-/

namespace Catalog

/-- Nested laptop specification record (`LaptopSpec` in src/main.py); every
field is optional.  Integer fields are modelled as `Int` and floating-point
fields as `Rat`; the numeric lower bounds are boundary validation and play no
role in the claims. -/
structure LaptopSpec where
  cpu : Option String := none
  gpu : Option String := none
  ram_gb : Option Int := none
  storage_gb : Option Int := none
  storage_type : Option String := none
  screen_size_inch : Option Rat := none
  resolution : Option String := none
  refresh_rate_hz : Option Int := none
  battery_wh : Option Rat := none
  weight_kg : Option Rat := none
  os : Option String := none
  ports : Option (List String) := none
  deriving DecidableEq

/-- A stored catalog record: `ProductBase` plus the store-assigned `id`
(`ProductOut` in src/main.py). -/
structure Product where
  id : Int
  brand : String
  model : String
  title : Option String := none
  description : Option String := none
  price : Rat
  sale_price : Option Rat := none
  stock : Int := 0
  image_url : Option String := none
  colors : Option (List String) := none
  tags : Option (List String) := none
  specs : Option LaptopSpec := none
  published : Bool := true
  deriving DecidableEq

/-- The partial-update payload (`ProductUpdate` in src/main.py): every field
optional, `none` meaning absent or explicitly null (pydantic defaults absent
fields to null, so the two are indistinguishable in `payload.dict()`). -/
structure ProductUpdate where
  brand : Option String := none
  model : Option String := none
  title : Option String := none
  description : Option String := none
  price : Option Rat := none
  sale_price : Option Rat := none
  stock : Option Int := none
  image_url : Option String := none
  colors : Option (List String) := none
  tags : Option (List String) := none
  specs : Option LaptopSpec := none
  published : Option Bool := none
  deriving DecidableEq

/-- The error taxonomy of the request handlers: HTTP 500, 401, 400 and 404
respectively. -/
inductive ApiError where
  | configError
  | unauthorized
  | validationError
  | notFound
  deriving DecidableEq

/-- Python truthiness of an optional string, as used by `if brand:` in
src/main.py: `None` and the empty string are falsy. -/
def pyTruthy : Option String → Bool
  | none => false
  | some s => !(s == "")

/-- Modelled from the spec: the store's `ilike` filter with the pattern
percent-x-percent is a case-insensitive substring test, realised by
lower-casing both sides. -/
def strContainsCI (hay needle : String) : Bool :=
  decide (needle.toLower.data <:+: hay.toLower.data)

/-- Modelled from the spec: `ilike` against a nullable column; a null column
matches no pattern. -/
def optContainsCI (hay : Option String) (needle : String) : Bool :=
  match hay with
  | none => false
  | some s => strContainsCI s needle

/-- The free-text OR filter built by `list_products` (src/main.py line 144):
the pattern matches when `q` occurs case-insensitively in `title`,
`description`, `model` or `brand`. -/
def qMatches (q : String) (p : Product) : Bool :=
  optContainsCI p.title q || optContainsCI p.description q ||
    strContainsCI p.model q || strContainsCI p.brand q

/-- Modelled from the spec: the store's containment filter on the `tags`
column -- exact membership of `tag` in the tag collection; a null collection
contains nothing. -/
def tagMatches (t : String) (p : Product) : Bool :=
  (p.tags.getD []).contains t

/-- The conjunction of where-clauses accumulated by `list_products`
(src/main.py lines 136-146): `published = true`, then, for each query
parameter that is Python-truthy, the corresponding filter. -/
def passesFilters (q brand tag : Option String) (p : Product) : Bool :=
  p.published &&
    (if pyTruthy brand then strContainsCI p.brand (brand.getD "") else true) &&
    (if pyTruthy tag then tagMatches (tag.getD "") p else true) &&
    (if pyTruthy q then qMatches (q.getD "") p else true)

/-- Descending order on `id`, the relation behind
`order("id", desc=True)`. -/
def idGe (a b : Product) : Prop := b.id ≤ a.id

instance : DecidableRel idGe := fun a b => inferInstanceAs (Decidable (b.id ≤ a.id))

instance : IsTotal Product idGe := ⟨fun a b => le_total b.id a.id⟩

instance : IsTrans Product idGe := ⟨fun _ _ _ h h2 => h2.trans h⟩

/-- `GET /api/products` (src/main.py lines 133-148).  Modelled from the spec
on the store side: the store keeps the rows satisfying the accumulated
where-clauses and returns them ordered by `id` descending (realised by
insertion sort under `idGe`). -/
def list_products (store : List Product) (q brand tag : Option String) :
    List Product :=
  List.insertionSort idGe (store.filter (passesFilters q brand tag))

/-- `GET /api/products/{product_id}` (src/main.py lines 150-156): single-row
fetch by `id` with no published filter; 404 when no row matches. -/
def get_product (store : List Product) (product_id : Int) :
    Except ApiError Product :=
  match store.find? (fun p => p.id == product_id) with
  | some p => Except.ok p
  | none => Except.error ApiError.notFound

/-- The payload survives null stripping: the dict comprehension
`if v is not None` on src/main.py line 171 keeps at least one field. -/
def hasUpdates (u : ProductUpdate) : Bool :=
  u.brand.isSome || u.model.isSome || u.title.isSome || u.description.isSome ||
    u.price.isSome || u.sale_price.isSome || u.stock.isSome ||
    u.image_url.isSome || u.colors.isSome || u.tags.isSome ||
    u.specs.isSome || u.published.isSome

/-- A nullable column after an update: it receives the payload value when one
was supplied and keeps the stored value otherwise. -/
def updCol {α : Type} (new old : Option α) : Option α :=
  match new with
  | some v => some v
  | none => old

/-- Modelled from the spec: the store's update-by-key overwrites exactly the
supplied columns (the non-null payload fields) and keeps every other column
of the row; `id` is never part of the payload. -/
def applyUpdate (u : ProductUpdate) (p : Product) : Product where
  id := p.id
  brand := u.brand.getD p.brand
  model := u.model.getD p.model
  title := updCol u.title p.title
  description := updCol u.description p.description
  price := u.price.getD p.price
  sale_price := updCol u.sale_price p.sale_price
  stock := u.stock.getD p.stock
  image_url := updCol u.image_url p.image_url
  colors := updCol u.colors p.colors
  tags := updCol u.tags p.tags
  specs := updCol u.specs p.specs
  published := u.published.getD p.published

/-- `PUT /api/admin/products/{product_id}` (src/main.py lines 168-177):
strips the null payload fields; 400 before any store call when nothing
remains; otherwise the store updates the rows matching `id` and returns the
updated row, and the handler raises 404 when no data came back. -/
def update_product (store : List Product) (product_id : Int)
    (u : ProductUpdate) : List Product × Except ApiError Product :=
  if hasUpdates u then
    let store' :=
      store.map (fun p => if p.id == product_id then applyUpdate u p else p)
    match store.find? (fun p => p.id == product_id) with
    | some p => (store', Except.ok (applyUpdate u p))
    | none => (store', Except.error ApiError.notFound)
  else
    (store, Except.error ApiError.validationError)

/-- `DELETE /api/admin/products/{product_id}` (src/main.py lines 179-186):
the store deletes the rows matching `id`, reporting them both as returned
data and as an affected-row count (modelled from the spec: the store must
report whether a row was affected); the handler raises 404 exactly when the
count is zero and no data came back. -/
def delete_product (store : List Product) (product_id : Int) :
    List Product × Except ApiError Bool :=
  let removed := store.filter (fun p => p.id == product_id)
  let store' := store.filter (fun p => !(p.id == product_id))
  if removed.length == 0 && removed.isEmpty then
    (store', Except.error ApiError.notFound)
  else
    (store', Except.ok true)

/-- `require_admin` (src/main.py lines 90-94): 500 when `ADMIN_TOKEN` is
unset or empty (Python falsiness), 401 when the `X-Admin-Token` header
differs from it -- exact string comparison, a missing header being unequal
to any configured token. -/
def require_admin (admin_token x_admin_token : Option String) :
    Except ApiError Unit :=
  if !(pyTruthy admin_token) then Except.error ApiError.configError
  else if x_admin_token ≠ admin_token then Except.error ApiError.unauthorized
  else Except.ok ()

/-- An admin route: FastAPI runs the `require_admin` dependency before the
handler, so an authentication failure reaches no handler and leaves the
store untouched. -/
def admin_endpoint {α : Type} (admin_token x_admin_token : Option String)
    (handler : List Product → List Product × Except ApiError α)
    (store : List Product) : List Product × Except ApiError α :=
  match require_admin admin_token x_admin_token with
  | Except.error e => (store, Except.error e)
  | Except.ok _ => handler store

/-- A published sample record used to instantiate the theorems. -/
def demoA : Product :=
  { id := 1, brand := "Dell", model := "XPS13",
    title := some "Dell XPS 13 SSD ultrabook", price := 999,
    tags := some ["ssd"], published := true }

/-- An unpublished sample record used to instantiate the theorems. -/
def demoB : Product :=
  { id := 2, brand := "Asus", model := "Zephyrus", price := 1500,
    published := false }

/-- A two-record sample store used to instantiate the theorems. -/
def demoStore : List Product := [demoA, demoB]

/-- A sample partial-update payload setting only `stock`. -/
def demoUpd : ProductUpdate := { stock := some 3 }

/-- A handler that mutates nothing, used to instantiate the gate theorems. -/
def idleHandler : List Product → List Product × Except ApiError Bool :=
  fun st => (st, Except.ok true)

/-- C1: every record returned by the public list operation has
`published = true`, the result is ordered by `id` descending, and with no
filters supplied it returns exactly the published catalog in that order. -/
theorem list_products_published_sorted (store : List Product)
    (q brand tag : Option String) (p : Product)
    (hp : p ∈ list_products store q brand tag) :
    p.published = true ∧
    (list_products store q brand tag).Sorted idGe ∧
    (∀ r : Product, r ∈ list_products store none none none ↔
      r ∈ store ∧ r.published = true) := by
  refine ⟨?_, List.sorted_insertionSort idGe _, ?_⟩
  · rw [list_products, List.mem_insertionSort, List.mem_filter] at hp
    have h := hp.2
    simp only [passesFilters, Bool.and_eq_true] at h
    exact h.1.1.1
  · intro r
    rw [list_products, List.mem_insertionSort, List.mem_filter]
    simp [passesFilters, pyTruthy]

/-- Closed instance of the C1 theorem at the sample store. -/
theorem list_products_published_sorted_witness :
    demoA.published = true ∧
    (list_products demoStore none none none).Sorted idGe ∧
    (∀ r : Product, r ∈ list_products demoStore none none none ↔
      r ∈ demoStore ∧ r.published = true) :=
  list_products_published_sorted demoStore none none none demoA (by decide)

/-- C9: a query parameter supplied as the empty string adds no predicate:
each of `q`, `brand`, `tag` given as the empty string behaves exactly as if
absent, so an all-empty-string call equals the unfiltered call. -/
theorem list_products_empty_string_filters (store : List Product)
    (q brand tag : Option String) :
    list_products store (some "") brand tag =
      list_products store none brand tag ∧
    list_products store q (some "") tag =
      list_products store q none tag ∧
    list_products store q brand (some "") =
      list_products store q brand none := by
  have h1 : passesFilters (some "") brand tag = passesFilters none brand tag := by
    funext p
    simp [passesFilters, pyTruthy]
  have h2 : passesFilters q (some "") tag = passesFilters q none tag := by
    funext p
    simp [passesFilters, pyTruthy]
  have h3 : passesFilters q brand (some "") = passesFilters q brand none := by
    funext p
    simp [passesFilters, pyTruthy]
  exact ⟨by rw [list_products, list_products, h1],
    by rw [list_products, list_products, h2],
    by rw [list_products, list_products, h3]⟩

/-- C10: with the admin secret configured as the empty string, every admin
request fails with the configuration error, whatever the header, and no
handler runs. -/
theorem admin_gate_empty_secret {α : Type} (x : Option String)
    (handler : List Product → List Product × Except ApiError α)
    (store : List Product) :
    admin_endpoint (some "") x handler store =
      (store, Except.error ApiError.configError) := by
  simp [admin_endpoint, require_admin, pyTruthy]

/-- C3: a payload in which every field is absent or null makes the update
fail with the validation error and leaves the store untouched, no store
call occurring. -/
theorem update_product_empty_payload (store : List Product)
    (product_id : Int) (u : ProductUpdate) (h : hasUpdates u = false) :
    update_product store product_id u =
      (store, Except.error ApiError.validationError) := by
  simp [update_product, h]

/-- Closed instance of the C3 theorem: an all-null payload at the sample
store. -/
theorem update_product_empty_payload_witness :
    update_product demoStore 1 {} =
      (demoStore, Except.error ApiError.validationError) :=
  update_product_empty_payload demoStore 1 {} (by decide)

/-- C5: with a non-empty free-text filter `q`, a record is returned exactly
when it passes the remaining supplied filters and `q` occurs
case-insensitively in one of `title`, `description`, `model`, `brand`; so
the free-text predicate is AND-composed with the other filters and only
matching records come back. -/
theorem list_products_q_and (store : List Product) (q : String)
    (hq : q ≠ "") (brand tag : Option String) (p : Product) :
    p ∈ list_products store (some q) brand tag ↔
      p ∈ list_products store none brand tag ∧ qMatches q p = true := by
  rw [list_products, list_products, List.mem_insertionSort,
    List.mem_insertionSort, List.mem_filter, List.mem_filter]
  simp only [passesFilters, pyTruthy, Bool.and_eq_true]
  simp [hq]
  tauto

/-- Closed instance of the C5 theorem at the sample store. -/
theorem list_products_q_and_witness :
    demoA ∈ list_products demoStore (some "ssd") none none ↔
      demoA ∈ list_products demoStore none none none ∧
        qMatches "ssd" demoA = true :=
  list_products_q_and demoStore "ssd" (by decide) none none demoA

/-- C6: with a non-empty tag filter `t`, every returned record has `t` as an
exact member of its tag collection. -/
theorem list_products_tag_member (store : List Product) (t : String)
    (ht : t ≠ "") (q brand : Option String) (p : Product)
    (hp : p ∈ list_products store q brand (some t)) :
    t ∈ p.tags.getD [] := by
  rw [list_products, List.mem_insertionSort, List.mem_filter] at hp
  have h := hp.2
  simp only [passesFilters, Bool.and_eq_true] at h
  have h2 := h.1.2
  rw [if_pos (by simp [pyTruthy, ht])] at h2
  simpa [tagMatches] using h2

/-- Closed instance of the C6 theorem at the sample store. -/
theorem list_products_tag_member_witness : "ssd" ∈ demoA.tags.getD [] :=
  list_products_tag_member demoStore "ssd" (by decide) none none demoA
    (by decide)

/-- C4: the admin gate -- with no secret configured every request fails with
the configuration error; with a (non-empty) secret configured, a missing or
mismatching header fails with Unauthorized and the handler, hence any
mutation, never runs; the comparison is exact string equality, so exactly
the matching header passes the gate. -/
theorem admin_gate_exact_equality {α : Type} (s : String) (hs : s ≠ "")
    (x : Option String)
    (handler : List Product → List Product × Except ApiError α)
    (store : List Product) :
    admin_endpoint none x handler store =
      (store, Except.error ApiError.configError) ∧
    (x ≠ some s →
      admin_endpoint (some s) x handler store =
        (store, Except.error ApiError.unauthorized)) ∧
    (x = some s → admin_endpoint (some s) x handler store = handler store) := by
  refine ⟨?_, ?_, ?_⟩
  · simp [admin_endpoint, require_admin, pyTruthy]
  · intro hne
    simp [admin_endpoint, require_admin, pyTruthy, hs, hne]
  · intro heq
    simp [admin_endpoint, require_admin, pyTruthy, hs, heq]

/-- Closed instance of the C4 theorem: unset secret, wrong header and right
header against the secret "secret". -/
theorem admin_gate_exact_equality_witness :
    admin_endpoint none (some "guess") idleHandler demoStore =
      (demoStore, Except.error ApiError.configError) ∧
    admin_endpoint (some "secret") (some "guess") idleHandler demoStore =
      (demoStore, Except.error ApiError.unauthorized) ∧
    admin_endpoint (some "secret") (some "secret") idleHandler demoStore =
      idleHandler demoStore := by
  refine ⟨?_, ?_, ?_⟩
  · exact (admin_gate_exact_equality "secret" (by decide) (some "guess")
      idleHandler demoStore).1
  · exact (admin_gate_exact_equality "secret" (by decide) (some "guess")
      idleHandler demoStore).2.1 (by decide)
  · exact (admin_gate_exact_equality "secret" (by decide) (some "secret")
      idleHandler demoStore).2.2 rfl

/-- With duplicate-free ids, `find?` by id returns exactly the member
carrying that id. -/
theorem find_by_id_unique {store : List Product} {pid : Int} {p : Product}
    (hnd : (store.map Product.id).Nodup) (hp : p ∈ store)
    (hid : p.id = pid) :
    store.find? (fun r => r.id == pid) = some p := by
  induction store with
  | nil => cases hp
  | cons a l ih =>
    rw [List.map_cons, List.nodup_cons] at hnd
    rcases List.mem_cons.mp hp with h | h
    · subst h
      exact List.find?_cons_of_pos _ (by simp [hid])
    · have hane : ¬(a.id == pid) = true := by
        simp only [beq_iff_eq]
        intro he
        exact hnd.1 (by rw [he, ← hid]; exact List.mem_map_of_mem Product.id h)
      have hstep : List.find? (fun r : Product => r.id == pid) (a :: l) =
          List.find? (fun r : Product => r.id == pid) l :=
        List.find?_cons_of_neg _ hane
      exact hstep.trans (ih hnd.2 h)

/-- C7: with duplicate-free ids, `get` returns the record carrying the
requested id whatever its published state, and fails with NotFound when no
record carries it. -/
theorem get_product_by_id (store : List Product) (pid : Int) (p : Product)
    (hnd : (store.map Product.id).Nodup) :
    (p ∈ store → p.id = pid → get_product store pid = Except.ok p) ∧
    ((∀ r ∈ store, r.id ≠ pid) →
      get_product store pid = Except.error ApiError.notFound) := by
  constructor
  · intro hp hid
    rw [get_product, find_by_id_unique hnd hp hid]
  · intro hall
    have hfind : store.find? (fun r => r.id == pid) = none := by
      rw [List.find?_eq_none]
      intro r hr
      simp [hall r hr]
    rw [get_product, hfind]

/-- Closed instance of the C7 theorem: a hit on the unpublished sample
record and a miss on an absent id. -/
theorem get_product_by_id_witness :
    get_product demoStore 2 = Except.ok demoB ∧
    get_product demoStore 99 = Except.error ApiError.notFound := by
  constructor
  · exact (get_product_by_id demoStore 2 demoB (by decide)).1 (by decide)
      (by decide)
  · exact (get_product_by_id demoStore 99 demoB (by decide)).2 (by decide)

/-- C8: `delete` on an id carried by no record reports NotFound (the store
reported zero affected rows and returned no data) and leaves the store as
it was; `delete` on a carried id reports success, and `get` of that id on
the resulting store reports NotFound. -/
theorem delete_product_removes (store : List Product) (pid : Int) :
    ((∀ r ∈ store, r.id ≠ pid) →
      delete_product store pid = (store, Except.error ApiError.notFound)) ∧
    ((∃ r ∈ store, r.id = pid) →
      (delete_product store pid).2 = Except.ok true ∧
      get_product (delete_product store pid).1 pid =
        Except.error ApiError.notFound) := by
  constructor
  · intro hall
    have hrem : store.filter (fun r => r.id == pid) = [] := by
      rw [List.filter_eq_nil_iff]
      intro r hr
      simp [hall r hr]
    have hkeep : store.filter (fun r => !(r.id == pid)) = store := by
      rw [List.filter_eq_self]
      intro r hr
      simp [hall r hr]
    simp [delete_product, hrem, hkeep]
  · rintro ⟨r, hr, hid⟩
    have hrem : r ∈ store.filter (fun x => x.id == pid) :=
      List.mem_filter.mpr ⟨hr, by simp [hid]⟩
    have hlen : (store.filter (fun x => x.id == pid)).length ≠ 0 := by
      intro h0
      rw [List.length_eq_zero] at h0
      rw [h0] at hrem
      cases hrem
    have hcond : ((store.filter (fun x => x.id == pid)).length == 0 &&
        (store.filter (fun x => x.id == pid)).isEmpty) = false := by
      simp [hlen]
    have hfind : (store.filter (fun x => !(x.id == pid))).find?
        (fun x => x.id == pid) = none := by
      rw [List.find?_eq_none]
      intro x hx
      have h2 := (List.mem_filter.mp hx).2
      simp at h2 ⊢
      exact h2
    constructor
    · simp [delete_product, hcond]
    · simp only [delete_product, hcond, Bool.false_eq_true, if_false]
      rw [get_product, hfind]

/-- Closed instance of the C8 theorem: a miss on an absent id, then a delete
of an existing record followed by a failing `get`. -/
theorem delete_product_removes_witness :
    delete_product demoStore 99 = (demoStore, Except.error ApiError.notFound) ∧
    ((delete_product demoStore 1).2 = Except.ok true ∧
      get_product (delete_product demoStore 1).1 1 =
        Except.error ApiError.notFound) :=
  ⟨(delete_product_removes demoStore 99).1 (by decide),
    (delete_product_removes demoStore 1).2 (by decide)⟩

/-- C2: for a payload with at least one non-null field and an id carried by
a stored record, the update succeeds and stores the record with exactly the
supplied fields overwritten: the id is kept, every field supplied in the
payload takes the payload value, every field the payload leaves absent or
null keeps its stored value, and every other record stays in the store. -/
theorem update_product_partial (store : List Product) (pid : Int)
    (u : ProductUpdate) (p : Product) (h1 : hasUpdates u = true)
    (h2 : store.find? (fun r => r.id == pid) = some p) :
    (update_product store pid u).2 = Except.ok (applyUpdate u p) ∧
    applyUpdate u p ∈ (update_product store pid u).1 ∧
    (∀ r ∈ store, r.id ≠ pid → r ∈ (update_product store pid u).1) ∧
    (applyUpdate u p).id = p.id ∧
    ((∀ v, u.brand = some v → (applyUpdate u p).brand = v) ∧
      (u.brand = none → (applyUpdate u p).brand = p.brand) ∧
      (∀ v, u.model = some v → (applyUpdate u p).model = v) ∧
      (u.model = none → (applyUpdate u p).model = p.model) ∧
      (∀ v, u.title = some v → (applyUpdate u p).title = some v) ∧
      (u.title = none → (applyUpdate u p).title = p.title) ∧
      (∀ v, u.description = some v →
        (applyUpdate u p).description = some v) ∧
      (u.description = none →
        (applyUpdate u p).description = p.description) ∧
      (∀ v, u.price = some v → (applyUpdate u p).price = v) ∧
      (u.price = none → (applyUpdate u p).price = p.price) ∧
      (∀ v, u.sale_price = some v →
        (applyUpdate u p).sale_price = some v) ∧
      (u.sale_price = none →
        (applyUpdate u p).sale_price = p.sale_price) ∧
      (∀ v, u.stock = some v → (applyUpdate u p).stock = v) ∧
      (u.stock = none → (applyUpdate u p).stock = p.stock) ∧
      (∀ v, u.image_url = some v → (applyUpdate u p).image_url = some v) ∧
      (u.image_url = none → (applyUpdate u p).image_url = p.image_url) ∧
      (∀ v, u.colors = some v → (applyUpdate u p).colors = some v) ∧
      (u.colors = none → (applyUpdate u p).colors = p.colors) ∧
      (∀ v, u.tags = some v → (applyUpdate u p).tags = some v) ∧
      (u.tags = none → (applyUpdate u p).tags = p.tags) ∧
      (∀ v, u.specs = some v → (applyUpdate u p).specs = some v) ∧
      (u.specs = none → (applyUpdate u p).specs = p.specs) ∧
      (∀ v, u.published = some v → (applyUpdate u p).published = v) ∧
      (u.published = none →
        (applyUpdate u p).published = p.published)) := by
  have hmem : p ∈ store := List.mem_of_find?_eq_some h2
  have hpp := List.find?_some h2
  have hupd : update_product store pid u =
      (store.map (fun r => if r.id == pid then applyUpdate u r else r),
        Except.ok (applyUpdate u p)) := by
    simp [update_product, h1, h2]
  refine ⟨by rw [hupd], ?_, ?_, rfl, ?_⟩
  · rw [hupd]
    exact List.mem_map.mpr ⟨p, hmem, by rw [if_pos hpp]⟩
  · intro r hr hne
    rw [hupd]
    exact List.mem_map.mpr ⟨r, hr, by rw [if_neg (by simp [hne])]⟩
  · repeat' apply And.intro
    all_goals
      first
      | (intro v hv
         simp [applyUpdate, updCol, hv])
      | (intro hn
         simp [applyUpdate, updCol, hn])

/-- Closed instance of the C2 theorem: a stock-only payload applied to the
sample store keeps the id and the untouched price and sets the stock. -/
theorem update_product_partial_witness :
    (update_product demoStore 1 demoUpd).2 =
      Except.ok (applyUpdate demoUpd demoA) ∧
    (applyUpdate demoUpd demoA).id = demoA.id ∧
    (applyUpdate demoUpd demoA).stock = 3 ∧
    (applyUpdate demoUpd demoA).price = demoA.price := by
  have h := update_product_partial demoStore 1 demoUpd demoA (by decide)
    (by decide)
  refine ⟨h.1, h.2.2.2.1, ?_, ?_⟩
  · exact h.2.2.2.2.2.2.2.2.2.2.2.2.2.2.2.2.1 3 rfl
  · exact h.2.2.2.2.2.2.2.2.2.2.2.2.2.1 rfl

end Catalog
